import Mathlib

/-!
Verification of the packaging descriptor `setup.py` of the sparksetup
repository.  The file below embeds the module shallowly: the two module
constants, the evaluated keyword arguments of the single `setup(...)` call,
and a statement-level rendering of the module body used to settle the
claims about the module's shape and its purity.
-/

namespace SparkSetup

/-- Module constant `SPARKMANAGER_NAME = 'sparkmanager'` (setup.py line 6). -/
def SPARKMANAGER_NAME : String := "sparkmanager"

/-- Module constant `SPARKMANAGER_VERSION = '0.2'` (setup.py line 7). -/
def SPARKMANAGER_VERSION : String := "0.2"

/-- Replaces the first occurrence of the placeholder pair of braces in a
character list by the argument characters; remaining characters are kept
verbatim.  This models Python's single-placeholder `str.format`, the only
form used in setup.py (line 19). -/
def fmtAux : List Char → List Char → List Char
  | [], _ => []
  | '\x7b' :: '\x7d' :: rest, arg => arg ++ rest
  | c :: rest, arg => c :: fmtAux rest arg

/-- Python `template.format(arg)` for a template with a single placeholder. -/
def pyFormat1 (template arg : String) : String :=
  String.mk (fmtAux template.toList arg.toList)

/-- The keyword arguments accepted by the `setup(...)` call, in evaluated
form.  Fields mirror the keywords passed in setup.py lines 10-44;
`entry_points` is a setuptools keyword that the call does not pass, so it
keeps its default `none`. -/
structure SetupArgs where
  name : String
  version : String
  description : String
  author : String
  author_email : String
  license : String
  keywords : List String
  url : String
  download_url : String
  classifiers : List String
  packages : List String
  install_requires : List String
  setup_requires : List String
  tests_require : List String
  scripts : List String
  entry_points : Option (List (String × List String)) := none

/-- The argument values of the one `setup(...)` call in setup.py
(lines 10-44), with `download_url` computed by `str.format` exactly as in
line 19. -/
def sparkmanagerSetup : SetupArgs :=
  { name := SPARKMANAGER_NAME
    version := SPARKMANAGER_VERSION
    description := "A pyspark management framework"
    author := "Matthias Wolf"
    author_email := "matthias.wolf@epfl.ch"
    license := "MIT"
    keywords := ["apache-spark"]
    url := "https://github.com/matz-e/sparkmanager"
    download_url :=
      pyFormat1 "https://github.com/matz-e/sparkmanager/archive/\x7b\x7d.tar.gz"
        SPARKMANAGER_VERSION
    classifiers :=
      [ "Development Status :: 3 - Alpha",
        "License :: OSI Approved :: MIT License",
        "Programming Language :: Python :: 2",
        "Programming Language :: Python :: 3",
        "Topic :: Software Development :: Libraries" ]
    packages := ["sparkmanager"]
    install_requires := ["pyspark", "six"]
    setup_requires := ["pytest-runner"]
    tests_require := ["pytest", "pytest-cov"]
    scripts := ["scripts/sm_cluster"] }

/-- True when the setup arguments register an executable through a
setuptools `console_scripts` entry-point declaration. -/
def declaresConsoleScript (a : SetupArgs) : Bool :=
  match a.entry_points with
  | none => false
  | some eps => eps.any fun p => p.1 == "console_scripts" && !p.2.isEmpty

end SparkSetup

namespace SparkSetup

/-! Statement-level embedding of the module body, covering the expression
and statement forms that occur in setup.py. -/

/-- Python expressions occurring in setup.py: string literals, name
references, lists of string literals, and `template.format(arg)` with one
positional argument. -/
inductive PyExpr where
  | str : String → PyExpr
  | name : String → PyExpr
  | strList : List String → PyExpr
  | formatOne : PyExpr → PyExpr → PyExpr

/-- Values the expressions of setup.py evaluate to. -/
inductive PyVal where
  | str : String → PyVal
  | strList : List String → PyVal

/-- Python module-level statements.  `funcDef` and `classDef` are carried
so that the absence of definitions in the module body is a meaningful
check, not one forced by the statement type. -/
inductive Stmt where
  | exprStr : String → Stmt
  | importFrom : String → List String → Stmt
  | assign : String → PyExpr → Stmt
  | callSetup : List (String × PyExpr) → Stmt
  | funcDef : String → Stmt
  | classDef : String → Stmt

/-- The module body of setup.py, statement by statement: the module
docstring (lines 1-2), the import (line 4), the two constant assignments
(lines 6-7) and the `setup(...)` call (lines 10-44) with its keyword
argument expressions as written. -/
def moduleBody : List Stmt :=
  [ .exprStr "Installation setup for bbp.spark\n",
    .importFrom "setuptools" ["setup"],
    .assign "SPARKMANAGER_NAME" (.str "sparkmanager"),
    .assign "SPARKMANAGER_VERSION" (.str "0.2"),
    .callSetup
      [ ("name", .name "SPARKMANAGER_NAME"),
        ("version", .name "SPARKMANAGER_VERSION"),
        ("description", .str "A pyspark management framework"),
        ("author", .str "Matthias Wolf"),
        ("author_email", .str "matthias.wolf@epfl.ch"),
        ("license", .str "MIT"),
        ("keywords", .strList ["apache-spark"]),
        ("url", .str "https://github.com/matz-e/sparkmanager"),
        ("download_url",
          .formatOne
            (.str "https://github.com/matz-e/sparkmanager/archive/\x7b\x7d.tar.gz")
            (.name "SPARKMANAGER_VERSION")),
        ("classifiers",
          .strList
            [ "Development Status :: 3 - Alpha",
              "License :: OSI Approved :: MIT License",
              "Programming Language :: Python :: 2",
              "Programming Language :: Python :: 3",
              "Topic :: Software Development :: Libraries" ]),
        ("packages", .strList ["sparkmanager"]),
        ("install_requires", .strList ["pyspark", "six"]),
        ("setup_requires", .strList ["pytest-runner"]),
        ("tests_require", .strList ["pytest", "pytest-cov"]),
        ("scripts", .strList ["scripts/sm_cluster"]) ] ]

/-- Variable bindings of the module scope. -/
abbrev Env : Type := List (String × PyVal)

/-- Looks a name up among the module bindings. -/
def lookupVar (env : Env) (n : String) : Option PyVal :=
  (List.find? (fun p => p.1 == n) env).map Prod.snd

/-- Evaluates an expression under the module bindings; a reference to an
unbound name or a `format` on a non-string fails. -/
def evalExpr (env : Env) : PyExpr → Option PyVal
  | .str s => some (.str s)
  | .name n => lookupVar env n
  | .strList xs => some (.strList xs)
  | .formatOne t a =>
      match evalExpr env t, evalExpr env a with
      | some (.str tv), some (.str av) => some (.str (pyFormat1 tv av))
      | _, _ => none

/-- Evaluates the keyword arguments of a call left to right. -/
def evalKwargs (env : Env) : List (String × PyExpr) → Option (List (String × PyVal))
  | [] => some []
  | (k, e) :: rest =>
      match evalExpr env e, evalKwargs env rest with
      | some v, some vs => some ((k, v) :: vs)
      | _, _ => none

/-- The world outside the module: environment variables, file contents and
network responses, each an abstract partial map.  setup.py never consults
any of them, which the purity theorem makes precise. -/
structure World where
  env : String → Option String
  files : String → Option String
  network : String → Option String

/-- State threaded through the execution of the module body. -/
structure ModuleState where
  world : World
  bindings : Env
  setupCalls : List (List (String × PyVal))
  errored : Bool

/-- Executes one module-level statement.  The docstring expression and
the import bind nothing the later statements read through `Env`;
`setup(...)` records its evaluated keyword arguments.  No statement form
reads or writes the world. -/
def execStmt (s : ModuleState) : Stmt → ModuleState
  | .exprStr _ => s
  | .importFrom _ _ => s
  | .assign n e =>
      match evalExpr s.bindings e with
      | some v => { s with bindings := s.bindings ++ [(n, v)] }
      | none => { s with errored := true }
  | .callSetup kwargs =>
      match evalKwargs s.bindings kwargs with
      | some vs => { s with setupCalls := s.setupCalls ++ [vs] }
      | none => { s with errored := true }
  | .funcDef _ => s
  | .classDef _ => s

/-- The initial module state over a given world. -/
def initState (w : World) : ModuleState :=
  { world := w, bindings := [], setupCalls := [], errored := false }

/-- Runs the whole module body of setup.py over a given world. -/
def runModule (w : World) : ModuleState :=
  moduleBody.foldl execStmt (initState w)

/-- Statement classifiers used to state the module-shape claims. -/
def isImportStmt : Stmt → Bool
  | .importFrom _ _ => true
  | _ => false

/-- True for an assignment whose right-hand side is a string literal. -/
def isStrAssign : Stmt → Bool
  | .assign _ (.str _) => true
  | _ => false

/-- True for the `setup(...)` call statement. -/
def isSetupCall : Stmt → Bool
  | .callSetup _ => true
  | _ => false

/-- True for a bare string-expression statement (the module docstring). -/
def isStrExpr : Stmt → Bool
  | .exprStr _ => true
  | _ => false

/-- True for a statement defining a function or a class. -/
def isDefStmt : Stmt → Bool
  | .funcDef _ => true
  | .classDef _ => true
  | _ => false

end SparkSetup

namespace SparkSetup

/-! Coherence between the two views: running the module body produces
exactly one `setup` call whose evaluated arguments agree with
`sparkmanagerSetup`, regardless of the outside world. -/

/-- Running setup.py records exactly one `setup` call, and its evaluated
keyword arguments are the values of `sparkmanagerSetup`. -/
theorem runModule_setupCalls (w : World) :
    (runModule w).setupCalls =
      [ [ ("name", .str sparkmanagerSetup.name),
          ("version", .str sparkmanagerSetup.version),
          ("description", .str sparkmanagerSetup.description),
          ("author", .str sparkmanagerSetup.author),
          ("author_email", .str sparkmanagerSetup.author_email),
          ("license", .str sparkmanagerSetup.license),
          ("keywords", .strList sparkmanagerSetup.keywords),
          ("url", .str sparkmanagerSetup.url),
          ("download_url", .str sparkmanagerSetup.download_url),
          ("classifiers", .strList sparkmanagerSetup.classifiers),
          ("packages", .strList sparkmanagerSetup.packages),
          ("install_requires", .strList sparkmanagerSetup.install_requires),
          ("setup_requires", .strList sparkmanagerSetup.setup_requires),
          ("tests_require", .strList sparkmanagerSetup.tests_require),
          ("scripts", .strList sparkmanagerSetup.scripts) ] ] := by
  rfl

/-- C1: the `install_requires` list passed to `setup` contains exactly the
two entries `pyspark` and `six`, in that order, and no others. -/
theorem C1_install_requires :
    sparkmanagerSetup.install_requires = ["pyspark", "six"] := by
  decide

/-- C2: the `name` argument passed to `setup` is `sparkmanager` and the
`version` argument is `0.2`. -/
theorem C2_name_version :
    sparkmanagerSetup.name = "sparkmanager" ∧
    sparkmanagerSetup.version = "0.2" := by
  decide

/-- C3: the `scripts` list passed to `setup` is the singleton
`[scripts/sm_cluster]`. -/
theorem C3_scripts :
    sparkmanagerSetup.scripts = ["scripts/sm_cluster"] := by
  decide

/-- C4 counterexample: the setup call does not register its executable
through a `console_scripts` entry-point declaration; no `entry_points`
argument is passed at all, so the claimed mechanism is absent. -/
theorem C4_counterexample :
    ¬ declaresConsoleScript sparkmanagerSetup = true := by
  decide

/-- C4 amended: the setup call installs its executable through the
`scripts` argument, the singleton `[scripts/sm_cluster]`, and passes no
`entry_points` (hence no `console_scripts`) declaration. -/
theorem C4_amended_scripts_mechanism :
    sparkmanagerSetup.scripts = ["scripts/sm_cluster"] ∧
    sparkmanagerSetup.entry_points = none := by
  exact ⟨rfl, rfl⟩

/-- C5: the `tests_require` list passed to `setup` is exactly
`[pytest, pytest-cov]`, and `setup_requires` is `[pytest-runner]`. -/
theorem C5_test_dependencies :
    sparkmanagerSetup.tests_require = ["pytest", "pytest-cov"] ∧
    sparkmanagerSetup.setup_requires = ["pytest-runner"] := by
  decide

/-- C6 counterexample: the module body does not consist only of an import,
two string-constant assignments and a single `setup` call: it also holds
the module docstring, a bare string-expression statement, so the claimed
exhaustive enumeration of the body is false. -/
theorem C6_counterexample :
    ¬ ((moduleBody.all fun s =>
          isImportStmt s || isStrAssign s || isSetupCall s) = true ∧
       (moduleBody.filter isImportStmt).length = 1 ∧
       (moduleBody.filter isStrAssign).length = 2 ∧
       (moduleBody.filter isSetupCall).length = 1) := by
  decide

/-- C6 amended: the module body of setup.py consists only of the module
docstring, one import, two string-constant assignments and a single call
to `setup`, and defines no functions or classes of its own. -/
theorem C6_amended_module_shape :
    (moduleBody.filter isStrExpr).length = 1 ∧
    (moduleBody.filter isImportStmt).length = 1 ∧
    (moduleBody.filter isStrAssign).length = 2 ∧
    (moduleBody.filter isSetupCall).length = 1 ∧
    (moduleBody.all fun s =>
      isStrExpr s || isImportStmt s || isStrAssign s || isSetupCall s) = true ∧
    (moduleBody.all fun s => !isDefStmt s) = true := by
  decide

/-- C7: evaluating setup.py is deterministic and pure: over any two worlds
the module records identical `setup` arguments and identical bindings,
never errors, and leaves the world untouched (no environment, file or
network access, no resource acquisition). -/
theorem C7_deterministic_pure (w₁ w₂ : World) :
    (runModule w₁).setupCalls = (runModule w₂).setupCalls ∧
    (runModule w₁).bindings = (runModule w₂).bindings ∧
    (runModule w₁).errored = false ∧
    (runModule w₁).world = w₁ := by
  exact ⟨rfl, rfl, rfl, rfl⟩

/-- C8: the `download_url` argument equals the `url` argument with
`/archive/`, the version constant and `.tar.gz` appended, so the archive
URL names exactly the declared package version. -/
theorem C8_download_url_from_version :
    sparkmanagerSetup.download_url =
      sparkmanagerSetup.url ++ "/archive/" ++ SPARKMANAGER_VERSION ++ ".tar.gz" ∧
    sparkmanagerSetup.version = SPARKMANAGER_VERSION := by
  decide

/-- C9: the declared package list is the singleton `[sparkmanager]` and
its sole entry equals the `name` argument passed to `setup`. -/
theorem C9_packages_singleton_name :
    sparkmanagerSetup.packages = [sparkmanagerSetup.name] ∧
    sparkmanagerSetup.name = SPARKMANAGER_NAME := by
  decide

/-- C10: the classifiers advertise support for both Python 2 and Python 3,
and the compatibility shim `six` is among the runtime dependencies. -/
theorem C10_python2_and_3_classifiers :
    "Programming Language :: Python :: 2" ∈ sparkmanagerSetup.classifiers ∧
    "Programming Language :: Python :: 3" ∈ sparkmanagerSetup.classifiers ∧
    "six" ∈ sparkmanagerSetup.install_requires := by
  decide

end SparkSetup
